import Mathlib

/-!
Shallow embedding of the session reward engine of `src/hooks/useMiner.ts`
(the `useMiner` hook): the statistics record, the three reward-accumulator
updates (passive tick, solve, distance milestone), the generic balance
addition, the withdrawal orchestrator, the captcha verification gate and
the persisted account store with its account-switch guard.

Numbers are modelled as exact rationals (JS numbers under exact
arithmetic); machine randomness (`Math.random`) and ambient clock values
(`Date.now`) are passed in as explicit parameters; the payout network call
is an explicit outcome parameter (a response or a thrown error).
-/

namespace SolBridge

/-- `TAB_MINING_REWARD` constant of `useMiner.ts`. -/
def TAB_MINING_REWARD : ℚ := 0.000012

/-- The fixed primary/secondary conversion rate `1.45` used at every
`pendingXMR = newSOL / 1.45` recomputation in `useMiner.ts`. -/
def FIXED_RATE : ℚ := 1.45

/-- `CaptchaDifficulty` enum from `types.ts` (three tiers). -/
inductive CaptchaDifficulty
  | easy
  | medium
  | hard
deriving DecidableEq, Repr

/-- The `REWARDS` table of `useMiner.ts`. -/
def REWARDS : CaptchaDifficulty → ℚ
  | .easy => 0.002
  | .medium => 0.005
  | .hard => 0.012

/-- `MiningStats` record from `types.ts`, as used throughout `useMiner.ts`. -/
structure MiningStats where
  hashRate : ℚ
  totalHashes : ℚ
  acceptedShares : ℚ
  pendingXMR : ℚ
  pendingSOL : ℚ
  uptime : ℚ
  solves : ℚ
deriving DecidableEq, Repr

/-- The zero-valued default statistics record (`useMiner.ts` lines 36-44). -/
def initialStats : MiningStats :=
  { hashRate := 0
    totalHashes := 0
    acceptedShares := 0
    pendingXMR := 0
    pendingSOL := 0
    uptime := 0
    solves := 0 }

/-- Loading a statistics record from storage (`useMiner.ts` lines 20-45 and
79-92): a successfully parsed record is spread with `hashRate` and `uptime`
forced to `0`; a miss (or parse failure) yields the zero-valued defaults. -/
def loadStats (saved : Option MiningStats) : MiningStats :=
  match saved with
  | some parsed => { parsed with hashRate := 0, uptime := 0 }
  | none => initialStats

/-- The passive tick update (`useMiner.ts` lines 134-146). `rand` stands for
the sampled `Math.random() * 50`. -/
def tickUpdate (rand : ℚ) (prev : MiningStats) : MiningStats :=
  let newSOL := prev.pendingSOL + TAB_MINING_REWARD
  { prev with
    pendingSOL := newSOL
    pendingXMR := newSOL / FIXED_RATE
    uptime := prev.uptime + 1.5
    hashRate := if prev.hashRate > 400 then prev.hashRate else 450 + rand
    totalHashes := prev.totalHashes + 15 }

/-- The rolling solve-timestamp window maintenance of `onSolveSuccess`
(`useMiner.ts` lines 168-170): push `now`, then drop entries older than
10000 time units. -/
def updateSolveWindow (now : ℤ) (ts : List ℤ) : List ℤ :=
  (ts ++ [now]).filter (fun t => now - t < 10000)

/-- The display hash-rate derived in `onSolveSuccess` (`useMiner.ts` lines
173-174) from the window size and the passive flag. -/
def currentHashrate (windowLen : ℕ) (isTabMining : Bool) : ℚ :=
  ((windowLen : ℚ) / 10) * 1000 + (if isTabMining then 450 else 0)

/-- The statistics transition of `onSolveSuccess` (`useMiner.ts` lines
176-187): the `setStats` closure, with the precomputed display hash-rate
passed in. -/
def solveStatsUpdate (difficulty : CaptchaDifficulty) (hashRateNow : ℚ)
    (prev : MiningStats) : MiningStats :=
  let reward := REWARDS difficulty
  let newSOL := prev.pendingSOL + reward
  { prev with
    solves := prev.solves + 1
    acceptedShares := prev.acceptedShares + 1
    totalHashes := prev.totalHashes + 100
    pendingSOL := newSOL
    pendingXMR := newSOL / FIXED_RATE
    hashRate := hashRateNow }

/-- Full `onSolveSuccess` (`useMiner.ts` lines 167-188): updates the solve
window, derives the hash-rate and applies the statistics transition. -/
def onSolveSuccess (difficulty : CaptchaDifficulty) (now : ℤ)
    (isTabMining : Bool) (ts : List ℤ) (prev : MiningStats) :
    List ℤ × MiningStats :=
  let newTs := updateSolveWindow now ts
  (newTs, solveStatsUpdate difficulty
    (currentHashrate newTs.length isTabMining) prev)

/-- The milestone reward computed by `onDistanceMilestone` (`useMiner.ts`
lines 283-337): the five-tier table and, for distances beyond 500 that are
exact multiples of 100, the extrapolation formula
`0.0120 + Math.floor((distance - 500) / 100) * 0.0056`. All other
distances yield `0`. -/
def milestoneReward (distance : ℤ) : ℚ :=
  if distance = 100 then 0.0040
  else if distance = 200 then 0.0056
  else if distance = 300 then 0.0071
  else if distance = 400 then 0.0081
  else if distance = 500 then 0.0120
  else if distance > 500 ∧ distance % 100 = 0 then
    0.0120 + (((distance - 500) / 100 : ℤ) : ℚ) * 0.0056
  else 0

/-- `onDistanceMilestone` (`useMiner.ts` lines 283-351): when the reward is
positive the balance is credited, the secondary denomination recomputed and
the display hash-rate bumped by 50; otherwise `setStats` is never called
and the record is untouched. -/
def onDistanceMilestone (distance : ℤ) (prev : MiningStats) : MiningStats :=
  let reward := milestoneReward distance
  if reward > 0 then
    let newSOL := prev.pendingSOL + reward
    { prev with
      pendingSOL := newSOL
      pendingXMR := newSOL / FIXED_RATE
      hashRate := prev.hashRate + 50 }
  else prev

/-- `addPendingBalance` (`useMiner.ts` lines 272-281). -/
def addPendingBalance (amount : ℚ) (prev : MiningStats) : MiningStats :=
  let newSOL := prev.pendingSOL + amount
  { prev with
    pendingSOL := newSOL
    pendingXMR := newSOL / FIXED_RATE }

/-- The balance reset applied by `requestWithdrawal` on a confirmed
success (`useMiner.ts` line 247): both denominations zeroed. -/
def resetPendingBalance (prev : MiningStats) : MiningStats :=
  { prev with pendingSOL := 0, pendingXMR := 0 }

/-- The spec invariant: the secondary pending balance equals the primary
pending balance divided by the fixed rate. -/
def balanceInvariant (s : MiningStats) : Prop :=
  s.pendingXMR = s.pendingSOL / FIXED_RATE

instance (s : MiningStats) : Decidable (balanceInvariant s) := by
  unfold balanceInvariant
  infer_instance

/-- `PayoutRecord` status values from `types.ts`. -/
inductive PayoutStatus
  | pending
  | completed
  | failed
deriving DecidableEq, Repr

/-- `PayoutRecord` from `types.ts`, as synthesized and patched by
`requestWithdrawal`. -/
structure PayoutRecord where
  id : String
  timestamp : ℤ
  amountSOL : ℚ
  status : PayoutStatus
  txHash : String
  address : String
deriving DecidableEq, Repr

/-- The payout service response as interpreted by `requestWithdrawal`
(`useMiner.ts` lines 216-229): the HTTP `response.ok` flag and the parsed
JSON body `{success, txHash?, error?}`. -/
structure ApiResponse where
  ok : Bool
  success : Bool
  txHash : String
  error : Option String
deriving DecidableEq, Repr

/-- Outcome of the payout network call: either a response arrives or the
call throws (network error). -/
inductive NetOutcome
  | response (r : ApiResponse)
  | thrown
deriving DecidableEq, Repr

/-- The structured result returned by `requestWithdrawal`
(`{success, error?, txHash?}`). -/
structure WithdrawResult where
  success : Bool
  error : Option String
  txHash : Option String
deriving DecidableEq, Repr

/-- `requestWithdrawal` (`useMiner.ts` lines 190-262). The generated record
id, the clock value and the network outcome are explicit parameters; the
result is the returned structured value together with the statistics record
and history after all `setStats`/`setHistory` updates have been applied. -/
def requestWithdrawal (payoutAddress : Option String) (newId : String)
    (now : ℤ) (net : NetOutcome) (stats : MiningStats)
    (history : List PayoutRecord) :
    WithdrawResult × MiningStats × List PayoutRecord :=
  if stats.pendingSOL < 0.03 then
    ({ success := false, error := some "Minimum withdrawal is 0.03 SOL",
       txHash := none }, stats, history)
  else
    match payoutAddress with
    | none =>
      ({ success := false, error := some "No payout address configured",
         txHash := none }, stats, history)
    | some addr =>
      let amountToWithdraw := stats.pendingSOL
      let pendingPayout : PayoutRecord :=
        { id := newId
          timestamp := now
          amountSOL := amountToWithdraw
          status := .pending
          txHash := ""
          address := addr }
      let hist1 := pendingPayout :: history
      match net with
      | .thrown =>
        ({ success := false, error := some "Network error. Please try again.",
           txHash := none },
         stats,
         hist1.map (fun p =>
           if p.id = pendingPayout.id then { p with status := .failed } else p))
      | .response r =>
        if !r.ok || !r.success then
          ({ success := false,
             error := some (r.error.getD "Withdrawal failed"),
             txHash := none },
           stats,
           hist1.map (fun p =>
             if p.id = pendingPayout.id then { p with status := .failed } else p))
        else
          ({ success := true, error := none, txHash := some r.txHash },
           resetPendingBalance stats,
           hist1.map (fun p =>
             if p.id = pendingPayout.id then
               { p with status := .completed, txHash := r.txHash }
             else p))

/-- Lower-casing used for the case-insensitive captcha comparison
(`solution.toLowerCase() === expected.toLowerCase()`), character by
character. -/
def lowerStr (s : String) : String :=
  String.mk (s.data.map Char.toLower)

/-- Result of a `verifyCaptcha` call (`{success, error?}`). -/
structure VerifyResult where
  success : Bool
  error : Option String
deriving DecidableEq, Repr

/-- One resolved `verifyCaptcha` call (`useMiner.ts` lines 151-165):
the returned result, the cooldown flag right after resolution,
the delay (ms) before the promise resolves, and the scheduled
cooldown-clearing delay when one was armed. -/
structure VerifyStep where
  result : VerifyResult
  cooldownAfter : Bool
  resolveDelay : ℕ
  clearDelay : Option ℕ
deriving DecidableEq, Repr

/-- `verifyCaptcha` (`useMiner.ts` lines 151-165): a call during cooldown
resolves immediately with a rate-limit error; otherwise the comparison runs
after the fixed 400 ms delay; a case-insensitive match sets the cooldown
flag and schedules its clearing after 3000 ms; a mismatch leaves the flag
alone. -/
def verifyCaptcha (cooldown : Bool) (solution expected : String) : VerifyStep :=
  if cooldown then
    { result := { success := false, error := some "Rate limit exceeded (3s)" }
      cooldownAfter := cooldown
      resolveDelay := 0
      clearDelay := none }
  else if lowerStr solution = lowerStr expected then
    { result := { success := true, error := none }
      cooldownAfter := true
      resolveDelay := 400
      clearDelay := some 3000 }
  else
    { result := { success := false, error := some "Invalid captcha" }
      cooldownAfter := cooldown
      resolveDelay := 400
      clearDelay := none }

/-- Storage key for an account's statistics record
(`solbridge_stats_<address>`). -/
def statsKey (addr : String) : String := "solbridge_stats_" ++ addr

/-- Storage key for an account's history (`solbridge_history_<address>`). -/
def historyKey (addr : String) : String := "solbridge_history_" ++ addr

/-- Hook state during one render commit and its effect flush. `stats` and
`history` are the committed state this commit's effect closures read; a
`setStats`/`setHistory` call made inside an effect only queues an update
(`queuedStats`/`queuedHistory`) that becomes the committed state at the
next render, while the ref `loadedAddressRef` (`loadedAddress`) is mutated
synchronously. Storage is an association list keyed as `localStorage`,
newest entry first. -/
structure HookCommit where
  config : Option String
  loadedAddress : Option String
  stats : MiningStats
  history : List PayoutRecord
  queuedStats : Option MiningStats
  queuedHistory : Option (List PayoutRecord)
  statsStorage : List (String × MiningStats)
  historyStorage : List (String × List PayoutRecord)

/-- The address reload effect (`useMiner.ts` lines 70-108): returns early
without a configured key; otherwise reads both records for that key from
storage, queues `setStats`/`setHistory` with the loaded values (they do not
change this commit's committed state), and then synchronously sets the
guard ref to the configured key. -/
def reloadEffect (s : HookCommit) : HookCommit :=
  match s.config with
  | none => s
  | some addr =>
    { s with
      queuedStats := some (loadStats (s.statsStorage.lookup (statsKey addr)))
      queuedHistory :=
        some ((s.historyStorage.lookup (historyKey addr)).getD [])
      loadedAddress := some addr }

/-- The statistics persistence effect (`useMiner.ts` lines 110-116):
returns early without a configured key or when the guard ref differs from
it; otherwise writes this commit's committed `stats` closure value under
the configured key. -/
def persistStatsEffect (s : HookCommit) : HookCommit :=
  match s.config with
  | none => s
  | some addr =>
    if s.loadedAddress = some addr then
      { s with statsStorage := (statsKey addr, s.stats) :: s.statsStorage }
    else s

/-- The history persistence effect (`useMiner.ts` lines 118-124), guarded
like the statistics one. -/
def persistHistoryEffect (s : HookCommit) : HookCommit :=
  match s.config with
  | none => s
  | some addr =>
    if s.loadedAddress = some addr then
      { s with historyStorage :=
          (historyKey addr, s.history) :: s.historyStorage }
    else s

/-- The effect flush of the commit in which `initialConfig.payoutAddress`
changed: all three effects list the address in their dependency arrays, so
all of them run, in declaration order — the reload effect (`useMiner.ts`
line 70) first, then the statistics persistence effect (line 110), then
the history persistence effect (line 118). -/
def addressSwitchFlush (s : HookCommit) : HookCommit :=
  persistHistoryEffect (persistStatsEffect (reloadEffect s))

/-- The re-render that follows a flush: the queued state updates commit and
become the state the next commit's closures read. Only after this do the
records loaded by the reload effect replace the previous account's data in
memory. -/
def applyQueued (s : HookCommit) : HookCommit :=
  { s with
    stats := s.queuedStats.getD s.stats
    history := s.queuedHistory.getD s.history
    queuedStats := none
    queuedHistory := none }

/-- Income events folded into the statistics record by the reward
accumulator: a passive tick (with its sampled randomness), a solve (with
the display hash-rate context derived outside the `setStats` closure), and
a distance milestone. -/
inductive RewardEvent
  | tick (rand : ℚ)
  | solve (difficulty : CaptchaDifficulty) (hashRateNow : ℚ)
  | milestone (distance : ℤ)
deriving DecidableEq, Repr

/-- Apply one income event to the statistics record, with the update
function the source uses for that event. -/
def applyRewardEvent (s : MiningStats) : RewardEvent → MiningStats
  | .tick rand => tickUpdate rand s
  | .solve d h => solveStatsUpdate d h s
  | .milestone dist => onDistanceMilestone dist s

/-- The individual reward amount an income event carries. -/
def eventReward : RewardEvent → ℚ
  | .tick _ => TAB_MINING_REWARD
  | .solve d _ => REWARDS d
  | .milestone dist => milestoneReward dist

theorem milestoneReward_nonneg (d : ℤ) : 0 ≤ milestoneReward d := by
  unfold milestoneReward
  split_ifs with h1 h2 h3 h4 h5 h6
  · norm_num
  · norm_num
  · norm_num
  · norm_num
  · norm_num
  · have hq : (0 : ℤ) ≤ (d - 500) / 100 :=
      Int.ediv_nonneg (by omega) (by norm_num)
    have hq2 : (0 : ℚ) ≤ (((d - 500) / 100 : ℤ) : ℚ) := by exact_mod_cast hq
    have hmul : (0 : ℚ) ≤ (((d - 500) / 100 : ℤ) : ℚ) * 0.0056 :=
      mul_nonneg hq2 (by norm_num)
    have hbase : (0 : ℚ) ≤ 0.0120 := by norm_num
    exact add_nonneg hbase hmul
  · exact le_refl 0

theorem onDistanceMilestone_pendingSOL (d : ℤ) (s : MiningStats) :
    (onDistanceMilestone d s).pendingSOL = s.pendingSOL + milestoneReward d := by
  unfold onDistanceMilestone
  dsimp only
  split_ifs with h
  · rfl
  · have h0 : milestoneReward d = 0 :=
      le_antisymm (not_lt.mp h) (milestoneReward_nonneg d)
    rw [h0, add_zero]

theorem applyRewardEvent_pendingSOL (s : MiningStats) (e : RewardEvent) :
    (applyRewardEvent s e).pendingSOL = s.pendingSOL + eventReward e := by
  cases e with
  | tick rand => rfl
  | solve d h => rfl
  | milestone dist => exact onDistanceMilestone_pendingSOL dist s

theorem foldl_pendingSOL_eq_sum (events : List RewardEvent)
    (init : MiningStats) :
    (events.foldl applyRewardEvent init).pendingSOL
      = init.pendingSOL + (events.map eventReward).sum := by
  induction events generalizing init with
  | nil => simp
  | cons e rest ih =>
    rw [List.foldl_cons, ih, applyRewardEvent_pendingSOL, List.map_cons,
      List.sum_cons, add_assoc]

end SolBridge

namespace SolBridge

/-- Claim C1: after every mutation of the statistics record — the passive
tick update, the solve update, the milestone update, the generic balance
addition, and the balance reset applied on a successful withdrawal — the
secondary pending balance equals the primary pending balance divided by the
fixed rate 1.45 exactly. -/
theorem claim1_balance_invariant (s : MiningStats)
    (rand hashRateNow amount : ℚ) (d : CaptchaDifficulty) (dist : ℤ)
    (h : balanceInvariant s) :
    balanceInvariant (tickUpdate rand s) ∧
    balanceInvariant (solveStatsUpdate d hashRateNow s) ∧
    balanceInvariant (onDistanceMilestone dist s) ∧
    balanceInvariant (addPendingBalance amount s) ∧
    balanceInvariant (resetPendingBalance s) := by
  refine ⟨rfl, rfl, ?_, rfl, ?_⟩
  · unfold onDistanceMilestone
    dsimp only
    split_ifs with hr
    · rfl
    · exact h
  · show (0 : ℚ) = 0 / FIXED_RATE
    rw [zero_div]

/-- Witness for C1 at the zero-valued initial record. -/
theorem claim1_balance_invariant_witness :
    balanceInvariant initialStats ∧
    balanceInvariant (tickUpdate 0 initialStats) ∧
    balanceInvariant (solveStatsUpdate .easy 0 initialStats) ∧
    balanceInvariant (onDistanceMilestone 550 initialStats) ∧
    balanceInvariant (addPendingBalance 1 initialStats) ∧
    balanceInvariant (resetPendingBalance initialStats) := by
  have hinv : balanceInvariant initialStats := by
    show (0 : ℚ) = 0 / FIXED_RATE
    rw [zero_div]
  exact ⟨hinv, claim1_balance_invariant initialStats 0 0 1 .easy 550 hinv⟩

/-- Claim C3 counterexample: at distance 200 the milestone update credits
the pending primary balance with 0.0056, not the 0.0011 of the table the
claim states. -/
theorem claim3_counterexample :
    (onDistanceMilestone 200 initialStats).pendingSOL
      = initialStats.pendingSOL + 0.0056 ∧
    (0.0056 : ℚ) ≠ 0.0011 := by
  constructor
  · rw [onDistanceMilestone_pendingSOL]
    norm_num [milestoneReward]
  · norm_num

/-- Claim C3 as amended: for every distance in {100, 200, 300, 400, 500}
the milestone update credits the pending primary balance with the reward of
the table the code implements: 100→0.0040, 200→0.0056, 300→0.0071,
400→0.0081, 500→0.0120. -/
theorem claim3_amended (prev : MiningStats) :
    (onDistanceMilestone 100 prev).pendingSOL = prev.pendingSOL + 0.0040 ∧
    (onDistanceMilestone 200 prev).pendingSOL = prev.pendingSOL + 0.0056 ∧
    (onDistanceMilestone 300 prev).pendingSOL = prev.pendingSOL + 0.0071 ∧
    (onDistanceMilestone 400 prev).pendingSOL = prev.pendingSOL + 0.0081 ∧
    (onDistanceMilestone 500 prev).pendingSOL = prev.pendingSOL + 0.0120 := by
  refine ⟨?_, ?_, ?_, ?_, ?_⟩ <;> rw [onDistanceMilestone_pendingSOL] <;>
    norm_num [milestoneReward]

/-- Claim C4 counterexample: the extrapolated reward beyond 500 grows with
the distance — 600 credits 0.0176 and 700 credits 0.0232 — and the reward
at 600 is not the flat last-tier increment (neither 0.0016 nor 0.0032) the
claim states. -/
theorem claim4_counterexample :
    (onDistanceMilestone 600 initialStats).pendingSOL
      = initialStats.pendingSOL + 0.0176 ∧
    (onDistanceMilestone 700 initialStats).pendingSOL
      = initialStats.pendingSOL + 0.0232 ∧
    (0.0176 : ℚ) ≠ 0.0232 ∧ (0.0176 : ℚ) ≠ 0.0016 ∧ (0.0176 : ℚ) ≠ 0.0032 := by
  refine ⟨?_, ?_, by norm_num, by norm_num, by norm_num⟩ <;>
    rw [onDistanceMilestone_pendingSOL] <;> norm_num [milestoneReward]

/-- Claim C4 as amended: for every distance d > 500 that is an exact
multiple of the 100-unit step the milestone update credits the growing
extrapolated reward 0.0120 + ((d - 500) / 100) * 0.0056 (so 600 credits
0.0176, not a flat increment), and for every distance that is not an exact
multiple of the step no reward is added and the statistics record is left
unchanged. -/
theorem claim4_amended (dist : ℤ) (prev : MiningStats) :
    (500 < dist → dist % 100 = 0 →
      (onDistanceMilestone dist prev).pendingSOL
        = prev.pendingSOL
          + (0.0120 + (((dist - 500) / 100 : ℤ) : ℚ) * 0.0056)) ∧
    (dist % 100 ≠ 0 → onDistanceMilestone dist prev = prev) := by
  constructor
  · intro h1 h2
    rw [onDistanceMilestone_pendingSOL]
    have hval : milestoneReward dist
        = 0.0120 + (((dist - 500) / 100 : ℤ) : ℚ) * 0.0056 := by
      unfold milestoneReward
      split_ifs with a b c d e f
      · omega
      · omega
      · omega
      · omega
      · omega
      · rfl
      · exact absurd ⟨h1, h2⟩ f
    rw [hval]
  · intro hmod
    have h0 : milestoneReward dist = 0 := by
      unfold milestoneReward
      split_ifs with a b c d e f
      · exact absurd (by omega) hmod
      · exact absurd (by omega) hmod
      · exact absurd (by omega) hmod
      · exact absurd (by omega) hmod
      · exact absurd (by omega) hmod
      · exact absurd f.2 hmod
      · rfl
    unfold onDistanceMilestone
    dsimp only
    rw [h0]
    norm_num

/-- Witness for C4 as amended, at distances 600 and 550. -/
theorem claim4_amended_witness :
    (onDistanceMilestone 600 initialStats).pendingSOL
      = initialStats.pendingSOL
        + (0.0120 + ((((600 : ℤ) - 500) / 100 : ℤ) : ℚ) * 0.0056) ∧
    onDistanceMilestone 550 initialStats = initialStats :=
  ⟨(claim4_amended 600 initialStats).1 (by decide) (by decide),
   (claim4_amended 550 initialStats).2 (by decide)⟩

end SolBridge

namespace SolBridge

/-- Claim C2 fails on the code (evaluated at a concrete failing input):
in the effect flush of the commit where the configured account key has
just become "B" while account "A"'s records are still the committed
in-memory state, the reload effect sets the guard ref to "B" before the
two persistence effects run, so those effects — whose closures still hold
"A"'s statistics and history — pass the guard and write "A"'s data under
"B"'s storage keys, shadowing the record previously stored for "B". The
fresh records loaded for "B" are only queued at that point, not yet
committed. -/
theorem claim2_stale_write_under_new_key :
    (List.lookup (statsKey "B")
        (addressSwitchFlush
          { config := some "B"
            loadedAddress := some "A"
            stats := { hashRate := 0, totalHashes := 300, acceptedShares := 3,
                       pendingXMR := 0, pendingSOL := 0.05, uptime := 12,
                       solves := 3 }
            history := [{ id := "recA", timestamp := 5, amountSOL := 0.05,
                          status := .pending, txHash := "", address := "A" }]
            queuedStats := none
            queuedHistory := none
            statsStorage := [(statsKey "B", initialStats)]
            historyStorage := [] }).statsStorage
      = some { hashRate := 0, totalHashes := 300, acceptedShares := 3,
               pendingXMR := 0, pendingSOL := 0.05, uptime := 12,
               solves := 3 }) ∧
    (List.lookup (historyKey "B")
        (addressSwitchFlush
          { config := some "B"
            loadedAddress := some "A"
            stats := { hashRate := 0, totalHashes := 300, acceptedShares := 3,
                       pendingXMR := 0, pendingSOL := 0.05, uptime := 12,
                       solves := 3 }
            history := [{ id := "recA", timestamp := 5, amountSOL := 0.05,
                          status := .pending, txHash := "", address := "A" }]
            queuedStats := none
            queuedHistory := none
            statsStorage := [(statsKey "B", initialStats)]
            historyStorage := [] }).historyStorage
      = some [{ id := "recA", timestamp := 5, amountSOL := 0.05,
                status := .pending, txHash := "", address := "A" }]) ∧
    ({ hashRate := 0, totalHashes := 300, acceptedShares := 3,
       pendingXMR := 0, pendingSOL := 0.05, uptime := 12,
       solves := 3 : MiningStats } ≠ initialStats) := by
  refine ⟨?_, ?_, ?_⟩
  · rfl
  · rfl
  · intro h
    have := congrArg MiningStats.pendingSOL h
    norm_num [initialStats] at this

end SolBridge

namespace SolBridge

/-- Claim C5: when the pending primary balance is at least the 0.03
minimum, an account key is configured, and the payout call returns a
successful response carrying a transaction hash, request-withdrawal
returns success with that hash, resets both pending balance denominations
to 0, and the newly prepended history head is the record patched to status
completed with that transaction hash. -/
theorem claim5_withdrawal_success (addr newId : String) (now : ℤ)
    (r : ApiResponse) (stats : MiningStats) (history : List PayoutRecord)
    (hmin : 0.03 ≤ stats.pendingSOL) (hok : r.ok = true)
    (hsucc : r.success = true) :
    (requestWithdrawal (some addr) newId now (.response r) stats history).1
      = { success := true, error := none, txHash := some r.txHash } ∧
    (requestWithdrawal (some addr) newId now (.response r) stats
      history).2.1.pendingSOL = 0 ∧
    (requestWithdrawal (some addr) newId now (.response r) stats
      history).2.1.pendingXMR = 0 ∧
    (requestWithdrawal (some addr) newId now (.response r) stats
      history).2.2.head?
      = some { id := newId, timestamp := now, amountSOL := stats.pendingSOL,
               status := .completed, txHash := r.txHash, address := addr } := by
  have hnl : ¬ stats.pendingSOL < 0.03 := not_lt.mpr hmin
  simp [requestWithdrawal, hnl, hok, hsucc, resetPendingBalance]

/-- Witness for C5: pending balance 0.05, successful response with
transaction hash "abc". -/
theorem claim5_withdrawal_success_witness :
    (requestWithdrawal (some "dest") "rec1" 0
        (.response { ok := true, success := true, txHash := "abc",
                     error := none })
        { hashRate := 0, totalHashes := 0, acceptedShares := 0,
          pendingXMR := 0, pendingSOL := 0.05, uptime := 0, solves := 0 }
        []).1
      = { success := true, error := none, txHash := some "abc" } ∧
    (requestWithdrawal (some "dest") "rec1" 0
        (.response { ok := true, success := true, txHash := "abc",
                     error := none })
        { hashRate := 0, totalHashes := 0, acceptedShares := 0,
          pendingXMR := 0, pendingSOL := 0.05, uptime := 0, solves := 0 }
        []).2.1.pendingSOL = 0 ∧
    (requestWithdrawal (some "dest") "rec1" 0
        (.response { ok := true, success := true, txHash := "abc",
                     error := none })
        { hashRate := 0, totalHashes := 0, acceptedShares := 0,
          pendingXMR := 0, pendingSOL := 0.05, uptime := 0, solves := 0 }
        []).2.2.head?
      = some { id := "rec1", timestamp := 0, amountSOL := 0.05,
               status := .completed, txHash := "abc", address := "dest" } := by
  have h := claim5_withdrawal_success "dest" "rec1" 0
    { ok := true, success := true, txHash := "abc", error := none }
    { hashRate := 0, totalHashes := 0, acceptedShares := 0,
      pendingXMR := 0, pendingSOL := 0.05, uptime := 0, solves := 0 }
    [] (by norm_num) rfl rfl
  exact ⟨h.1, h.2.1, h.2.2.2⟩

/-- Claim C6: when the withdrawal preconditions pass but the payout call
returns a non-success response or throws, request-withdrawal returns a
structured failure (it never throws: the embedding is a total function),
the statistics record — in particular both pending balance denominations —
is left unchanged, and the prepended history head is the record patched to
status failed with its transaction reference still empty. -/
theorem claim6_withdrawal_failure (addr newId : String) (now : ℤ)
    (net : NetOutcome) (stats : MiningStats) (history : List PayoutRecord)
    (hmin : 0.03 ≤ stats.pendingSOL)
    (hfail : net = .thrown ∨
      ∃ r, net = .response r ∧ (r.ok = false ∨ r.success = false)) :
    (requestWithdrawal (some addr) newId now net stats history).1.success
      = false ∧
    (requestWithdrawal (some addr) newId now net stats
      history).1.error.isSome = true ∧
    (requestWithdrawal (some addr) newId now net stats history).2.1
      = stats ∧
    (requestWithdrawal (some addr) newId now net stats history).2.2.head?
      = some { id := newId, timestamp := now, amountSOL := stats.pendingSOL,
               status := .failed, txHash := "", address := addr } := by
  have hnl : ¬ stats.pendingSOL < 0.03 := not_lt.mpr hmin
  rcases hfail with hth | ⟨r, hr, hbad⟩
  · subst hth
    simp [requestWithdrawal, hnl]
  · subst hr
    have hcond : (!r.ok || !r.success) = true := by
      rcases hbad with h | h <;> simp [h]
    simp [requestWithdrawal, hnl, hcond]

/-- Witness for C6: pending balance 0.10 and a response with success
false. -/
theorem claim6_withdrawal_failure_witness :
    (requestWithdrawal (some "dest") "rec2" 0
        (.response { ok := true, success := false, txHash := "",
                     error := some "insufficient funds" })
        { hashRate := 0, totalHashes := 0, acceptedShares := 0,
          pendingXMR := 0, pendingSOL := 0.10, uptime := 0, solves := 0 }
        []).1.success = false ∧
    (requestWithdrawal (some "dest") "rec2" 0
        (.response { ok := true, success := false, txHash := "",
                     error := some "insufficient funds" })
        { hashRate := 0, totalHashes := 0, acceptedShares := 0,
          pendingXMR := 0, pendingSOL := 0.10, uptime := 0, solves := 0 }
        []).2.1
      = { hashRate := 0, totalHashes := 0, acceptedShares := 0,
          pendingXMR := 0, pendingSOL := 0.10, uptime := 0, solves := 0 } ∧
    (requestWithdrawal (some "dest") "rec2" 0
        (.response { ok := true, success := false, txHash := "",
                     error := some "insufficient funds" })
        { hashRate := 0, totalHashes := 0, acceptedShares := 0,
          pendingXMR := 0, pendingSOL := 0.10, uptime := 0, solves := 0 }
        []).2.2.head?
      = some { id := "rec2", timestamp := 0, amountSOL := 0.10,
               status := .failed, txHash := "", address := "dest" } := by
  have h := claim6_withdrawal_failure "dest" "rec2" 0
    (.response { ok := true, success := false, txHash := "",
                 error := some "insufficient funds" })
    { hashRate := 0, totalHashes := 0, acceptedShares := 0,
      pendingXMR := 0, pendingSOL := 0.10, uptime := 0, solves := 0 }
    [] (by norm_num)
    (Or.inr ⟨_, rfl, Or.inr rfl⟩)
  exact ⟨h.1, h.2.2.1, h.2.2.2⟩

/-- Claim C7: when the pending primary balance is below the fixed 0.03
minimum, request-withdrawal returns the validation error and leaves the
statistics record and the history exactly as they were; the result is the
same for every network outcome and address, so no network call is made and
no history entry is created. -/
theorem claim7_below_minimum (payoutAddress : Option String)
    (newId : String) (now : ℤ) (net : NetOutcome) (stats : MiningStats)
    (history : List PayoutRecord) (h : stats.pendingSOL < 0.03) :
    requestWithdrawal payoutAddress newId now net stats history
      = ({ success := false, error := some "Minimum withdrawal is 0.03 SOL",
           txHash := none }, stats, history) := by
  unfold requestWithdrawal
  rw [if_pos h]

/-- Witness for C7: pending balance 0.01, below the 0.03 minimum. -/
theorem claim7_below_minimum_witness :
    requestWithdrawal (some "dest") "rec3" 0 .thrown
        { hashRate := 0, totalHashes := 0, acceptedShares := 0,
          pendingXMR := 0, pendingSOL := 0.01, uptime := 0, solves := 0 }
        []
      = ({ success := false, error := some "Minimum withdrawal is 0.03 SOL",
           txHash := none },
         { hashRate := 0, totalHashes := 0, acceptedShares := 0,
           pendingXMR := 0, pendingSOL := 0.01, uptime := 0, solves := 0 },
         []) :=
  claim7_below_minimum (some "dest") "rec3" 0 .thrown
    { hashRate := 0, totalHashes := 0, acceptedShares := 0,
      pendingXMR := 0, pendingSOL := 0.01, uptime := 0, solves := 0 }
    [] (by norm_num)

end SolBridge

namespace SolBridge

/-- Claim C8: a verify call issued while the cooldown flag is set resolves
immediately (no processing delay) with the rate-limit error and performs no
comparison — its outcome is independent of the submitted and expected
values; otherwise, after the fixed 400 ms processing delay, a
case-insensitive mismatch returns a failure without engaging the cooldown,
and only a case-insensitive match sets the cooldown flag, scheduling its
clearing after the 3000 ms cooldown. -/
theorem claim8_verification_gate :
    (∀ sol expected sol2 expected2 : String,
      verifyCaptcha true sol expected = verifyCaptcha true sol2 expected2 ∧
      (verifyCaptcha true sol expected).result.success = false ∧
      (verifyCaptcha true sol expected).result.error
        = some "Rate limit exceeded (3s)" ∧
      (verifyCaptcha true sol expected).resolveDelay = 0) ∧
    (∀ sol expected : String, lowerStr sol ≠ lowerStr expected →
      (verifyCaptcha false sol expected).result.success = false ∧
      (verifyCaptcha false sol expected).result.error
        = some "Invalid captcha" ∧
      (verifyCaptcha false sol expected).cooldownAfter = false ∧
      (verifyCaptcha false sol expected).clearDelay = none ∧
      (verifyCaptcha false sol expected).resolveDelay = 400) ∧
    (∀ sol expected : String, lowerStr sol = lowerStr expected →
      (verifyCaptcha false sol expected).result.success = true ∧
      (verifyCaptcha false sol expected).cooldownAfter = true ∧
      (verifyCaptcha false sol expected).clearDelay = some 3000 ∧
      (verifyCaptcha false sol expected).resolveDelay = 400) := by
  refine ⟨fun sol expected sol2 expected2 => ⟨rfl, rfl, rfl, rfl⟩,
    fun sol expected hne => ?_, fun sol expected heq => ?_⟩
  · simp [verifyCaptcha, hne]
  · simp [verifyCaptcha, heq]

/-- Witness for C8: a rate-limited call, a mismatch ("a" vs "b") and a
case-insensitive match ("A" vs "a"). -/
theorem claim8_verification_gate_witness :
    (verifyCaptcha true "a" "a").result.success = false ∧
    (verifyCaptcha true "a" "a").resolveDelay = 0 ∧
    (verifyCaptcha false "a" "b").cooldownAfter = false ∧
    (verifyCaptcha false "a" "b").result.success = false ∧
    (verifyCaptcha false "A" "a").result.success = true ∧
    (verifyCaptcha false "A" "a").cooldownAfter = true ∧
    (verifyCaptcha false "A" "a").clearDelay = some 3000 := by
  obtain ⟨h1, h2, h3⟩ := claim8_verification_gate
  obtain ⟨-, g1, -, g2⟩ := h1 "a" "a" "a" "a"
  obtain ⟨g3, -, g4, -, -⟩ := h2 "a" "b" (by decide)
  obtain ⟨g5, g6, g7, -⟩ := h3 "A" "a" (by decide)
  exact ⟨g1, g2, g4, g3, g5, g6, g7⟩

/-- Claim C9: for every finite sequence of tick, solve and milestone
updates applied in any interleaving order to an initial statistics record,
the final pending primary balance equals the initial one plus the sum of
the individual reward amounts of the applied updates, and any permutation
of the sequence yields the same final pending primary balance. -/
theorem claim9_additivity (events : List RewardEvent) (init : MiningStats) :
    (events.foldl applyRewardEvent init).pendingSOL
      = init.pendingSOL + (events.map eventReward).sum ∧
    (∀ other : List RewardEvent, other.Perm events →
      (other.foldl applyRewardEvent init).pendingSOL
        = (events.foldl applyRewardEvent init).pendingSOL) := by
  refine ⟨foldl_pendingSOL_eq_sum events init, fun other hperm => ?_⟩
  rw [foldl_pendingSOL_eq_sum, foldl_pendingSOL_eq_sum,
    (hperm.map eventReward).sum_eq]

/-- Witness for C9: a milestone and a tick applied in both orders. -/
theorem claim9_additivity_witness :
    (([RewardEvent.milestone 100, RewardEvent.tick 0].foldl
        applyRewardEvent initialStats).pendingSOL
      = initialStats.pendingSOL
        + ([RewardEvent.milestone 100, RewardEvent.tick 0].map
            eventReward).sum) ∧
    ([RewardEvent.tick 0, RewardEvent.milestone 100].foldl
        applyRewardEvent initialStats).pendingSOL
      = ([RewardEvent.milestone 100, RewardEvent.tick 0].foldl
          applyRewardEvent initialStats).pendingSOL :=
  ⟨(claim9_additivity [RewardEvent.milestone 100, RewardEvent.tick 0]
      initialStats).1,
   (claim9_additivity [RewardEvent.milestone 100, RewardEvent.tick 0]
      initialStats).2
     [RewardEvent.tick 0, RewardEvent.milestone 100]
     (List.Perm.swap (RewardEvent.milestone 100) (RewardEvent.tick 0) [])⟩

/-- Claim C10: loading an account's statistics record from storage forces
hashRate and uptime to 0 regardless of the persisted values, restores only
totalHashes, acceptedShares, pendingSOL, pendingXMR and solves from the
stored record, and yields the zero-valued defaults on a miss. -/
theorem claim10_load_resets_session_fields :
    (∀ parsed : MiningStats,
      (loadStats (some parsed)).hashRate = 0 ∧
      (loadStats (some parsed)).uptime = 0 ∧
      (loadStats (some parsed)).totalHashes = parsed.totalHashes ∧
      (loadStats (some parsed)).acceptedShares = parsed.acceptedShares ∧
      (loadStats (some parsed)).pendingSOL = parsed.pendingSOL ∧
      (loadStats (some parsed)).pendingXMR = parsed.pendingXMR ∧
      (loadStats (some parsed)).solves = parsed.solves) ∧
    loadStats none = initialStats :=
  ⟨fun _ => ⟨rfl, rfl, rfl, rfl, rfl, rfl, rfl⟩, rfl⟩

end SolBridge
